import Mathlib

/-!
# TRY-FIT: shallow embedding of the resilient remote generation calls

This file embeds, in Lean, the retry/backoff wrappers and orchestration
logic of the TRY-FIT virtual try-on application:

* `singleViewCompositeFlow` (single-view-composite) and
  `generateAiModelFlow` (generate-ai-model): both wrap one upstream
  `ai.generate` call in a `for (attempt = 1; attempt <= maxRetries; ...)`
  loop with `maxRetries = 3`, retrying after a 3000 ms wait exactly when
  the caught error is an `Error` instance whose message contains the
  substring "503" and `attempt < maxRetries`, rethrowing otherwise, and
  with a trailing `throw lastError` after the loop.
* the zod input schema of the single-view flow,
* `handleCreateTryOn` from the page component, and
* `multiAngleCompositeFlow`, which joins three per-angle prompt calls
  with `Promise.all`.

The upstream service is modelled as a function from the (1-based) attempt
number to the settled outcome of that attempt: either a thrown JavaScript
error or a resolved `media` value (possibly absent, possibly lacking a
`url`).  A run of a flow is recorded as a `RunTrace`: the final settled
result, the number of upstream attempts made, the list of backoff waits
performed (in milliseconds), and whether the statement after the loop
(`throw lastError`) was ever reached.
-/

namespace TryFit

/-! ## Strings: the JavaScript `String.prototype.includes` check -/

/-- Boolean test that the first character list starts the second. -/
def charsStartWith : List Char → List Char → Bool
  | [], _ => true
  | _ :: _, [] => false
  | a :: as, b :: bs => a == b && charsStartWith as bs

/-- Boolean test that `sub` occurs contiguously inside `l`. -/
def charsHasSub (sub : List Char) : List Char → Bool
  | [] => charsStartWith sub []
  | c :: cs => charsStartWith sub (c :: cs) || charsHasSub sub cs

/-- JavaScript `s.includes(sub)` on strings. -/
def strHasSub (s sub : String) : Bool :=
  charsHasSub sub.data s.data

/-! ## JavaScript values thrown and returned by the upstream call -/

/-- A JavaScript thrown value, as far as the retry logic inspects it:
whether it is an `Error` instance (`error instanceof Error`) and its
`message` text. -/
structure JsError where
  isError : Bool
  message : String
deriving Repr, DecidableEq

/-- The classification used by both retry loops:
`error instanceof Error && error.message.includes('503')`. -/
def isOverload503 (e : JsError) : Bool :=
  e.isError && strHasSub e.message "503"

/-- The `media` object destructured from an `ai.generate` response; its
`url` property may itself be absent. -/
structure GenMedia where
  url : Option String
deriving Repr, DecidableEq

/-- An upstream behaviour: for each 1-based attempt number, the settled
outcome of that attempt of the `ai.generate` call — a thrown error, or a
resolved response whose `media` may be absent. -/
def Upstream : Type :=
  Nat → Except JsError (Option GenMedia)

/-- JavaScript `x || ''` applied to a possibly-absent string: an absent
value yields the empty string, and a present falsy string is already the
empty string, so presence is the identity. -/
def jsOrEmpty : Option String → String
  | none => ""
  | some s => s

/-! ## The retry loop shared, textually, by both flows -/

/-- The observable record of one run of a flow: the settled result, the
number of upstream attempts performed, the backoff waits performed in
order (milliseconds), and whether control ever reached the statement
placed after the `for` loop (`throw lastError`). -/
structure RunTrace (α : Type) where
  result : Except JsError α
  attempts : Nat
  waitsMs : List Nat
  afterLoopThrow : Bool
deriving Repr

/-- The thrown value of `throw lastError` when the loop body never ran:
`lastError` is still `undefined`, which is not an `Error` instance. -/
def undefinedThrown : JsError :=
  { isError := false, message := "undefined" }

/-- One run of the retry `for` loop common to `singleViewCompositeFlow`
and `generateAiModelFlow`.  `body attempt` is the outcome of the loop
body up to its `return` (the upstream call composed with the in-`try`
result construction); `lastError` threads the `lastError` variable;
`attempt` is the loop counter; `remaining` counts how many loop
iterations the guard `attempt <= maxRetries` still allows (the flows
start with `attempt = 1` and `remaining = maxRetries`).  When
`remaining` is exhausted the statement after the loop runs:
`throw lastError`. -/
def retryLoopRun {α : Type} (body : Nat → Except JsError α) (maxRetries : Nat) :
    Option JsError → Nat → Nat → RunTrace α
  | lastError, _attempt, 0 =>
      { result := .error ((lastError).getD undefinedThrown)
        attempts := 0
        waitsMs := []
        afterLoopThrow := true }
  | _lastError, attempt, r + 1 =>
      match body attempt with
      | .ok a =>
          { result := .ok a, attempts := 1, waitsMs := [], afterLoopThrow := false }
      | .error e =>
          if isOverload503 e = true ∧ attempt < maxRetries then
            { result := (retryLoopRun body maxRetries (some e) (attempt + 1) r).result
              attempts := (retryLoopRun body maxRetries (some e) (attempt + 1) r).attempts + 1
              waitsMs := 3000 :: (retryLoopRun body maxRetries (some e) (attempt + 1) r).waitsMs
              afterLoopThrow := (retryLoopRun body maxRetries (some e) (attempt + 1) r).afterLoopThrow }
          else
            { result := .error e, attempts := 1, waitsMs := [], afterLoopThrow := false }

/-! ## The single-view composite flow -/

/-- The three view angles of the `z.enum` in the single-view input
schema. -/
inductive ViewAngle
  | front
  | side
  | back
deriving Repr, DecidableEq

/-- The string form of a view angle, as interpolated into the prompt
text. -/
def ViewAngle.text : ViewAngle → String
  | .front => "front"
  | .side => "side"
  | .back => "back"

/-- The parsed input of `singleViewCompositeFlow`
(`SingleViewCompositeInputSchema`). -/
structure SingleViewCompositeInput where
  clothingImageUri : String
  modelImageUri : String
  clothingDescription : String
  modelDescription : String
  viewAngle : ViewAngle
deriving Repr, DecidableEq

/-- The output of `singleViewCompositeFlow`
(`SingleViewCompositeOutputSchema`). -/
structure SingleViewCompositeOutput where
  compositeImage : String
deriving Repr, DecidableEq

/-- The `viewAngleInstructions` lookup table inside
`singleViewCompositeFlow`. -/
def viewAngleInstructions : ViewAngle → String
  | .front => "Show the model from the front angle, facing forward"
  | .side => "Show the model from a side profile angle (90 degrees), showing the side silhouette"
  | .back => "Show the model from behind (180 degrees), showing the back of the outfit"

/-- The part of the outbound prompt template that precedes the
interpolated `instruction`. -/
def compositePromptPre (input : SingleViewCompositeInput) : String :=
  "Composite the clothing item from the first image onto the AI model in the second image from a "
    ++ input.viewAngle.text
    ++ " view perspective. "

/-- The part of the outbound prompt template that follows the
interpolated `instruction`.  The trailing double space after "shadows"
is present in the source. -/
def compositePromptPost (input : SingleViewCompositeInput) : String :=
  ".\n\nRequirements:\n- Ensure the clothing fits naturally on the model from the specified angle\n- Maintain realistic lighting and shadows  \n- Preserve the clothing\x27s original colors and textures\n- Create a professional fashion photography look\n- Show how the garment drapes and fits from this specific perspective\n\nModel: "
    ++ input.modelDescription
    ++ "\nClothing: "
    ++ input.clothingDescription
    ++ "\n\nGenerate a high-quality "
    ++ input.viewAngle.text
    ++ " view composite."

/-- The text part of the outbound `ai.generate` request of
`singleViewCompositeFlow`: the template literal with `input.viewAngle`,
`instruction`, `input.modelDescription` and `input.clothingDescription`
interpolated, split here at the `instruction` interpolation point. -/
def compositePromptText (input : SingleViewCompositeInput) : String :=
  compositePromptPre input
    ++ viewAngleInstructions input.viewAngle
    ++ compositePromptPost input

/-- The outbound request of one attempt of `singleViewCompositeFlow`:
two media parts (clothing first, then model) followed by the text part,
sent to the image-generation model. -/
structure OutboundRequest where
  mediaUrls : List String
  text : String
  model : String
deriving Repr, DecidableEq

/-- The request `singleViewCompositeFlow` passes to `ai.generate`,
identical on every attempt. -/
def singleViewOutboundRequest (input : SingleViewCompositeInput) : OutboundRequest :=
  { mediaUrls := [input.clothingImageUri, input.modelImageUri]
    text := compositePromptText input
    model := "googleai/gemini-2.0-flash-preview-image-generation" }

/-- The body of one `try` block of the single-view retry loop: the
upstream call, then `return { compositeImage: media?.url || '' }`. -/
def singleViewAttemptBody (up : Upstream) (attempt : Nat) :
    Except JsError SingleViewCompositeOutput :=
  match up attempt with
  | .error e => .error e
  | .ok media => .ok { compositeImage := jsOrEmpty (media.bind GenMedia.url) }

/-- `singleViewCompositeFlow`: the retry loop with `maxRetries = 3`,
starting at `attempt = 1` with `lastError` undefined.  The outer
`try/catch` of the flow rethrows the error unchanged, so it does not
change the settled result.  The parsed `input` fixes the outbound
request but does not influence control flow, which depends only on the
upstream behaviour `up`. -/
def singleViewCompositeFlow (_input : SingleViewCompositeInput) (up : Upstream) :
    RunTrace SingleViewCompositeOutput :=
  retryLoopRun (singleViewAttemptBody up) 3 none 1 3

/-! ## The generate-ai-model flow -/

/-- The input of `generateAiModelFlow` (`GenerateAiModelInputSchema`). -/
structure GenerateAiModelInput where
  description : String
deriving Repr, DecidableEq

/-- The output of `generateAiModelFlow`
(`GenerateAiModelOutputSchema`); `modelImage` is `media!.url`, which can
be an absent value when the resolved `media` has no `url`. -/
structure GenerateAiModelOutput where
  modelImage : Option String
deriving Repr, DecidableEq

/-- The `TypeError` raised by evaluating `media!.url` when `media` is
absent: a runtime `Error` instance whose message does not contain
"503". -/
def mediaUndefinedError : JsError :=
  { isError := true
    message := "Cannot read properties of undefined (reading \x27url\x27)" }

/-- The body of one `try` block of the generate-ai-model retry loop: the
upstream call, then `return { modelImage: media!.url }`.  When the
resolved `media` is absent, the non-null assertion makes the property
access throw a `TypeError` inside the `try`, which the `catch` then
classifies like any other error. -/
def aiModelAttemptBody (up : Upstream) (attempt : Nat) :
    Except JsError GenerateAiModelOutput :=
  match up attempt with
  | .error e => .error e
  | .ok none => .error mediaUndefinedError
  | .ok (some m) => .ok { modelImage := m.url }

/-- `generateAiModelFlow`: textually the same retry loop as
`singleViewCompositeFlow` (`maxRetries = 3`, 3000 ms backoff, the same
503 classification), differing only in the in-`try` result
construction. -/
def generateAiModelFlow (_input : GenerateAiModelInput) (up : Upstream) :
    RunTrace GenerateAiModelOutput :=
  retryLoopRun (aiModelAttemptBody up) 3 none 1 3

/-! ## The zod input schema of the single-view flow -/

/-- The raw (pre-validation) input of `generateSingleViewComposite`: each
field may be absent.  `z.string()` checks only that a present value is a
string; it does not reject the empty string. -/
structure RawSingleViewInput where
  clothingImageUri : Option String
  modelImageUri : Option String
  clothingDescription : Option String
  modelDescription : Option String
  viewAngle : Option String
deriving Repr, DecidableEq

/-- The `z.enum(['front', 'side', 'back'])` check. -/
def parseViewAngle : String → Option ViewAngle
  | "front" => some ViewAngle.front
  | "side" => some ViewAngle.side
  | "back" => some ViewAngle.back
  | _ => none

/-- Validation of `SingleViewCompositeInputSchema`: every field must be
present (a string, possibly empty) and `viewAngle` must be one of the
three enum values. -/
def zodParseSingleViewInput (raw : RawSingleViewInput) : Option SingleViewCompositeInput :=
  match raw.clothingImageUri, raw.modelImageUri, raw.clothingDescription,
      raw.modelDescription, raw.viewAngle with
  | some c, some m, some cd, some md, some va =>
      match parseViewAngle va with
      | some angle =>
          some { clothingImageUri := c, modelImageUri := m, clothingDescription := cd
                 modelDescription := md, viewAngle := angle }
      | none => none
  | _, _, _, _, _ => none

/-- The error thrown when the flow input fails schema validation; it is
raised before the retry loop starts, so no upstream attempt is made. -/
def schemaValidationError : JsError :=
  { isError := true, message := "Schema validation failed for flow input" }

/-- `generateSingleViewComposite`: validate the raw input against the
schema, then run `singleViewCompositeFlow`.  A validation failure
settles as a thrown error with zero upstream attempts. -/
def generateSingleViewComposite (raw : RawSingleViewInput) (up : Upstream) :
    RunTrace SingleViewCompositeOutput :=
  match zodParseSingleViewInput raw with
  | none =>
      { result := .error schemaValidationError
        attempts := 0
        waitsMs := []
        afterLoopThrow := false }
  | some input => singleViewCompositeFlow input up

/-! ## The page handler `handleCreateTryOn` -/

/-- The clothing-analysis record held in page state
(`AnalyzeClothingImageOutput`), as far as the handler reads it. -/
structure ClothingAnalysis where
  garmentType : String
  clothingFeatures : List String
  suggestedGender : String
deriving Repr, DecidableEq

/-- The model form values read by the handler; `viewAngle` is cast to
the enum before the flow call. -/
structure ModelFormValues where
  gender : String
  pose : String
  bodyType : String
  skinTone : String
  viewAngle : ViewAngle
deriving Repr, DecidableEq

/-- JavaScript `Array.prototype.join(', ')`. -/
def joinComma : List String → String
  | [] => ""
  | [s] => s
  | s :: rest => s ++ ", " ++ joinComma rest

/-- The toasts the handler can show. -/
inductive Toast
  | missingImages
  | tryOnFailed
deriving Repr, DecidableEq

/-- The observable outcome of one invocation of `handleCreateTryOn`:
whether the composite flow was invoked, how many upstream attempts were
made, which toast (if any) was shown, and the final `compositeImage`
state. -/
structure HandlerOutcome where
  flowInvoked : Bool
  upstreamAttempts : Nat
  toast : Option Toast
  compositeImageState : Option String
deriving Repr, DecidableEq

/-- JavaScript falsiness of a `string | null` state value: `null` and
the empty string are both falsy. -/
def jsFalsyStr : Option String → Bool
  | none => true
  | some s => s == ""

/-- The outcome of the handler when the guard
`!clothingImage || !modelImage || !clothingAnalysis` fires: show the
"Missing Images" toast and return before any flow call. -/
def missingImagesOutcome : HandlerOutcome :=
  { flowInvoked := false
    upstreamAttempts := 0
    toast := some Toast.missingImages
    compositeImageState := none }

/-- `handleCreateTryOn` from the page component: guard on the three
state values, build the two description strings and the flow input, call
`generateSingleViewComposite` (the flow), then either store a truthy
`compositeImage` or show the failure toast (a thrown flow error and an
empty `compositeImage` both land in the failure toast). -/
def handleCreateTryOn (clothingImage modelImage : Option String)
    (clothingAnalysis : Option ClothingAnalysis) (modelValues : ModelFormValues)
    (up : Upstream) : HandlerOutcome :=
  match clothingImage, modelImage, clothingAnalysis with
  | some c, some m, some analysis =>
      if c == "" || m == "" then
        missingImagesOutcome
      else
        let modelDescription := "A " ++ modelValues.gender ++ " model with "
          ++ modelValues.skinTone ++ " and an " ++ modelValues.bodyType
          ++ ". The model is " ++ modelValues.pose ++ "."
        let clothingDescription := analysis.garmentType ++ " with features: "
          ++ joinComma analysis.clothingFeatures
        let trace := singleViewCompositeFlow
          { clothingImageUri := c, modelImageUri := m
            clothingDescription := clothingDescription
            modelDescription := modelDescription
            viewAngle := modelValues.viewAngle } up
        match trace.result with
        | .ok out =>
            if out.compositeImage == "" then
              { flowInvoked := true, upstreamAttempts := trace.attempts
                toast := some Toast.tryOnFailed, compositeImageState := none }
            else
              { flowInvoked := true, upstreamAttempts := trace.attempts
                toast := none, compositeImageState := some out.compositeImage }
        | .error _ =>
            { flowInvoked := true, upstreamAttempts := trace.attempts
              toast := some Toast.tryOnFailed, compositeImageState := none }
  | _, _, _ => missingImagesOutcome

/-! ## The multi-angle composite flow -/

/-- The `output` record of the front-view prompt. -/
structure FrontViewOut where
  frontView : String
deriving Repr, DecidableEq

/-- The `output` record of the side-view prompt. -/
structure SideViewOut where
  sideView : String
deriving Repr, DecidableEq

/-- The `output` record of the back-view prompt. -/
structure BackViewOut where
  backView : String
deriving Repr, DecidableEq

/-- The output of `multiAngleCompositeFlow`
(`MultiAngleCompositeOutputSchema`). -/
structure MultiAngleCompositeOutput where
  frontView : String
  sideView : String
  backView : String
deriving Repr, DecidableEq

/-- `Promise.all` on three already-settled outcomes: if all three
resolved, resolve with the triple; otherwise reject with one of the
rejection reasons.  (`Promise.all` rejects with the earliest rejection
in time; this model takes the first in argument order, which coincides
with it whenever at most one input rejects.) -/
def promiseAll3 {A B C : Type} :
    Except JsError A → Except JsError B → Except JsError C → Except JsError (A × B × C)
  | .error e, _, _ => .error e
  | .ok _, .error e, _ => .error e
  | .ok _, .ok _, .error e => .error e
  | .ok a, .ok b, .ok c => .ok (a, b, c)

/-- `multiAngleCompositeFlow`: the three per-angle prompt calls are
issued before the join and awaited together with `Promise.all`; each
argument is the settled outcome of one call (on resolution, the possibly
absent `output` record).  On a joint resolution the flow returns the
record with `output?.field || ''` for each view. -/
def multiAngleCompositeFlow
    (frontResult : Except JsError (Option FrontViewOut))
    (sideResult : Except JsError (Option SideViewOut))
    (backResult : Except JsError (Option BackViewOut)) :
    Except JsError MultiAngleCompositeOutput :=
  match promiseAll3 frontResult sideResult backResult with
  | .error e => .error e
  | .ok (f, s, b) =>
      .ok { frontView := jsOrEmpty (f.map FrontViewOut.frontView)
            sideView := jsOrEmpty (s.map SideViewOut.sideView)
            backView := jsOrEmpty (b.map BackViewOut.backView) }

/-! ## Concrete sample values used to exercise the theorems -/

/-- The `.error`/`.ok` discriminator of a settled result, keeping the
thrown error when there is one. -/
def settledError {α : Type} : Except JsError α → Option JsError
  | .error e => some e
  | .ok _ => none

/-- A fully populated single-view input. -/
def sampleInput : SingleViewCompositeInput :=
  { clothingImageUri := "data:image/png;base64,CLOTHING"
    modelImageUri := "data:image/png;base64,MODEL"
    clothingDescription := "red dress with floral pattern"
    modelDescription := "female model, athletic build"
    viewAngle := ViewAngle.front }

/-- A generate-ai-model input. -/
def sampleAiInput : GenerateAiModelInput :=
  { description := "A full-body studio portrait of a female model" }

/-- A concrete upstream overload error: an `Error` whose message carries
the 503 signature. -/
def overloadError : JsError :=
  { isError := true, message := "The model is overloaded. Please try again later. Status: 503" }

/-- A concrete non-overload upstream error (no "503" in the message). -/
def quotaError : JsError :=
  { isError := true, message := "Resource has been exhausted (check quota)." }

/-- An upstream that fails with the overload signature on every
attempt. -/
def upAlways503 : Upstream := fun _ => .error overloadError

/-- An upstream that fails with a non-overload error on every
attempt. -/
def upQuotaError : Upstream := fun _ => .error quotaError

/-- A resolved media value carrying a composite image. -/
def sampleMedia : GenMedia := { url := some "data:image/png;base64,COMPOSITE" }

/-- An upstream that fails with the overload signature on attempt 1 and
resolves with `sampleMedia` from attempt 2 on. -/
def upRecoverSecond : Upstream := fun n =>
  if n = 1 then .error overloadError else .ok (some sampleMedia)

/-- An upstream that resolves on every attempt with no `media` value at
all. -/
def upEmptyOk : Upstream := fun _ => .ok none

/-- An upstream that resolves immediately with `sampleMedia`. -/
def upImmediateOk : Upstream := fun _ => .ok (some sampleMedia)

/-- A raw single-view input whose clothing image reference is present
but empty, all other fields populated. -/
def rawEmptyClothing : RawSingleViewInput :=
  { clothingImageUri := some ""
    modelImageUri := some "data:image/png;base64,MODEL"
    clothingDescription := some "red dress"
    modelDescription := some "female model"
    viewAngle := some "front" }

/-- A raw single-view input whose clothing image field is absent. -/
def rawMissingClothing : RawSingleViewInput :=
  { clothingImageUri := none
    modelImageUri := some "data:image/png;base64,MODEL"
    clothingDescription := some "red dress"
    modelDescription := some "female model"
    viewAngle := some "front" }

/-- Sample model-form values for the handler. -/
def sampleFormValues : ModelFormValues :=
  { gender := "female"
    pose := "standing confidently, hands on hips"
    bodyType := "athletic build"
    skinTone := "light brown skin"
    viewAngle := ViewAngle.front }

/-- A sample clothing analysis for the handler. -/
def sampleAnalysis : ClothingAnalysis :=
  { garmentType := "dress"
    clothingFeatures := ["floral pattern", "short sleeves"]
    suggestedGender := "female" }

/-! ## Unfolding lemmas for the retry loop -/

/-- A loop iteration whose body resolves settles the run with that
value: one attempt, no wait. -/
theorem retryLoopRun_ok {α : Type} (body : Nat → Except JsError α) (m : Nat)
    (le : Option JsError) (attempt r remaining : Nat) (a : α)
    (hr : remaining = r + 1) (hb : body attempt = .ok a) :
    retryLoopRun body m le attempt remaining =
      { result := .ok a, attempts := 1, waitsMs := [], afterLoopThrow := false } := by
  subst hr
  unfold retryLoopRun
  rw [hb]

/-- A loop iteration whose body throws a non-retryable error (either not
the overload signature, or no attempts left) rethrows it: one attempt,
no wait. -/
theorem retryLoopRun_throw {α : Type} (body : Nat → Except JsError α) (m : Nat)
    (le : Option JsError) (attempt r remaining : Nat) (e : JsError)
    (hr : remaining = r + 1) (hb : body attempt = .error e)
    (hc : ¬(isOverload503 e = true ∧ attempt < m)) :
    retryLoopRun body m le attempt remaining =
      { result := .error e, attempts := 1, waitsMs := [], afterLoopThrow := false } := by
  subst hr
  unfold retryLoopRun
  rw [hb]
  simp only [if_neg hc]

/-- A loop iteration whose body throws a retryable error waits 3000 ms
and continues with the next attempt. -/
theorem retryLoopRun_continue {α : Type} (body : Nat → Except JsError α) (m : Nat)
    (le : Option JsError) (attempt r remaining : Nat) (e : JsError)
    (hr : remaining = r + 1) (hb : body attempt = .error e)
    (h5 : isOverload503 e = true) (hlt : attempt < m) :
    retryLoopRun body m le attempt remaining =
      { result := (retryLoopRun body m (some e) (attempt + 1) r).result
        attempts := (retryLoopRun body m (some e) (attempt + 1) r).attempts + 1
        waitsMs := 3000 :: (retryLoopRun body m (some e) (attempt + 1) r).waitsMs
        afterLoopThrow := (retryLoopRun body m (some e) (attempt + 1) r).afterLoopThrow } := by
  subst hr
  conv_lhs => unfold retryLoopRun
  rw [hb]
  simp only [if_pos (And.intro h5 hlt)]

/-- The single-view loop body rethrows an upstream error unchanged. -/
theorem singleViewAttemptBody_error (up : Upstream) (n : Nat) (e : JsError)
    (h : up n = .error e) : singleViewAttemptBody up n = .error e := by
  unfold singleViewAttemptBody
  rw [h]

/-- The single-view loop body turns an upstream resolution into
`{ compositeImage := media?.url || mt }`. -/
theorem singleViewAttemptBody_ok (up : Upstream) (n : Nat) (media : Option GenMedia)
    (h : up n = .ok media) :
    singleViewAttemptBody up n =
      .ok { compositeImage := jsOrEmpty (media.bind GenMedia.url) } := by
  unfold singleViewAttemptBody
  rw [h]

/-- The generate-ai-model loop body rethrows an upstream error
unchanged. -/
theorem aiModelAttemptBody_error (up : Upstream) (n : Nat) (e : JsError)
    (h : up n = .error e) : aiModelAttemptBody up n = .error e := by
  unfold aiModelAttemptBody
  rw [h]

/-- The generate-ai-model loop body throws the `media!.url` type error
when the upstream resolution carries no media. -/
theorem aiModelAttemptBody_noMedia (up : Upstream) (n : Nat)
    (h : up n = .ok none) : aiModelAttemptBody up n = .error mediaUndefinedError := by
  unfold aiModelAttemptBody
  rw [h]

/-! ## The substring lemmas for the prompt text -/

/-- A list starts with itself followed by anything. -/
theorem charsStartWith_self_append (sub post : List Char) :
    charsStartWith sub (sub ++ post) = true := by
  induction sub with
  | nil => rfl
  | cons a as ih => simp [charsStartWith, ih]

/-- A list that starts with `sub` contains `sub`. -/
theorem charsHasSub_of_startWith (sub l : List Char)
    (h : charsStartWith sub l = true) : charsHasSub sub l = true := by
  cases l with
  | nil => simpa [charsHasSub] using h
  | cons c cs => simp [charsHasSub, h]

/-- Any list of the shape `pre ++ sub ++ post` contains `sub`. -/
theorem charsHasSub_append (pre sub post : List Char) :
    charsHasSub sub (pre ++ (sub ++ post)) = true := by
  induction pre with
  | nil =>
    exact charsHasSub_of_startWith sub (sub ++ post) (charsStartWith_self_append sub post)
  | cons c cs ih => simp [charsHasSub, ih]

/-- Appending strings appends their character data. -/
theorem strData_append (a b : String) : (a ++ b).data = a.data ++ b.data := by
  cases a
  cases b
  rfl

/-- A string of the shape `pre ++ sub ++ post` contains `sub`. -/
theorem strHasSub_split (pre sub post : String) :
    strHasSub (pre ++ sub ++ post) sub = true := by
  unfold strHasSub
  rw [strData_append, strData_append, List.append_assoc]
  exact charsHasSub_append pre.data sub.data post.data

/-! ## Loop invariants -/

/-- As long as the loop is entered with at least one iteration allowed
and `attempt + remaining = maxRetries + 1` (as when starting at attempt
1 with `remaining = maxRetries`), the statement after the loop is never
reached and at most `remaining` attempts are made. -/
theorem retryLoopRun_budget {α : Type} (body : Nat → Except JsError α) (m : Nat) :
    ∀ r attempt le, attempt + r = m + 1 → 1 ≤ r →
      (retryLoopRun body m le attempt r).afterLoopThrow = false ∧
      (retryLoopRun body m le attempt r).attempts ≤ r := by
  intro r
  induction r with
  | zero => intro attempt le _ h1; omega
  | succ n ih =>
    intro attempt le hsum _
    cases hb : body attempt with
    | ok a =>
      rw [retryLoopRun_ok body m le attempt n (n + 1) a rfl hb]
      simp
    | error e =>
      by_cases hc : isOverload503 e = true ∧ attempt < m
      · rw [retryLoopRun_continue body m le attempt n (n + 1) e rfl hb hc.1 hc.2]
        have hn : 1 ≤ n := by omega
        have hrec := ih (attempt + 1) (some e) (by omega) hn
        constructor
        · simpa using hrec.1
        · simp only []
          omega
      · rw [retryLoopRun_throw body m le attempt n (n + 1) e rfl hb hc]
        simp

/-- Two retry loops whose bodies throw the same errors on every attempt
produce the same attempt count, the same waits, and the same thrown
error: the retry policy depends only on the thrown errors. -/
theorem retryLoopRun_error_congr {α β : Type}
    (b1 : Nat → Except JsError α) (b2 : Nat → Except JsError β) (m : Nat)
    (h : ∀ n, ∃ e, b1 n = .error e ∧ b2 n = .error e) :
    ∀ r attempt le,
      (retryLoopRun b1 m le attempt r).attempts = (retryLoopRun b2 m le attempt r).attempts ∧
      (retryLoopRun b1 m le attempt r).waitsMs = (retryLoopRun b2 m le attempt r).waitsMs ∧
      settledError (retryLoopRun b1 m le attempt r).result
        = settledError (retryLoopRun b2 m le attempt r).result := by
  intro r
  induction r with
  | zero => intro attempt le; exact ⟨rfl, rfl, rfl⟩
  | succ n ih =>
    intro attempt le
    obtain ⟨e, hb1, hb2⟩ := h attempt
    by_cases hc : isOverload503 e = true ∧ attempt < m
    · rw [retryLoopRun_continue b1 m le attempt n (n + 1) e rfl hb1 hc.1 hc.2]
      rw [retryLoopRun_continue b2 m le attempt n (n + 1) e rfl hb2 hc.1 hc.2]
      have hrec := ih (attempt + 1) (some e)
      exact ⟨by simp [hrec.1], by simp [hrec.2.1], by simpa using hrec.2.2⟩
    · rw [retryLoopRun_throw b1 m le attempt n (n + 1) e rfl hb1 hc]
      rw [retryLoopRun_throw b2 m le attempt n (n + 1) e rfl hb2 hc]
      exact ⟨rfl, rfl, rfl⟩

/-! ## The claims -/

/-- C1: against an upstream whose every invocation fails with an Error
whose message contains the 503 overload signature, the single-view flow
makes exactly 3 attempts, performs exactly 2 intervening 3000 ms backoff
waits, and settles with the error observed on the third attempt. -/
theorem claim_C1_singleView_retry_bound (input : SingleViewCompositeInput) (up : Upstream)
    (h : ∀ n, ∃ e, up n = .error e ∧ isOverload503 e = true) :
    (singleViewCompositeFlow input up).attempts = 3 ∧
    (singleViewCompositeFlow input up).waitsMs = [3000, 3000] ∧
    ∃ e3, up 3 = .error e3 ∧ (singleViewCompositeFlow input up).result = .error e3 := by
  obtain ⟨e1, h1, o1⟩ := h 1
  obtain ⟨e2, h2, o2⟩ := h 2
  obtain ⟨e3, h3, o3⟩ := h 3
  have b1 := singleViewAttemptBody_error up 1 e1 h1
  have b2 := singleViewAttemptBody_error up 2 e2 h2
  have b3 := singleViewAttemptBody_error up 3 e3 h3
  unfold singleViewCompositeFlow
  rw [retryLoopRun_continue (singleViewAttemptBody up) 3 none 1 2 3 e1 rfl b1 o1 (by norm_num)]
  rw [retryLoopRun_continue (singleViewAttemptBody up) 3 (some e1) 2 1 2 e2 rfl b2 o2 (by norm_num)]
  rw [retryLoopRun_throw (singleViewAttemptBody up) 3 (some e2) 3 0 1 e3 rfl b3 (by simp)]
  exact ⟨rfl, rfl, e3, h3, rfl⟩

/-- C1 witness: the concrete always-overloaded upstream makes 3 attempts,
2 waits, and settles with the overload error. -/
theorem claim_C1_witness :
    (∀ n, ∃ e, upAlways503 n = .error e ∧ isOverload503 e = true) ∧
    ((singleViewCompositeFlow sampleInput upAlways503).attempts = 3 ∧
     (singleViewCompositeFlow sampleInput upAlways503).waitsMs = [3000, 3000] ∧
     ∃ e3, upAlways503 3 = .error e3 ∧
       (singleViewCompositeFlow sampleInput upAlways503).result = .error e3) :=
  ⟨fun _ => ⟨overloadError, rfl, by decide⟩,
   claim_C1_singleView_retry_bound sampleInput upAlways503
     (fun _ => ⟨overloadError, rfl, by decide⟩)⟩

/-- C2: an upstream error without the 503 signature on the first attempt
is propagated at once: exactly 1 attempt, no backoff wait. -/
theorem claim_C2_singleView_no_retry_non_overload (input : SingleViewCompositeInput)
    (up : Upstream) (e : JsError)
    (h1 : up 1 = .error e) (hno : isOverload503 e = false) :
    (singleViewCompositeFlow input up).attempts = 1 ∧
    (singleViewCompositeFlow input up).waitsMs = [] ∧
    (singleViewCompositeFlow input up).result = .error e := by
  have b1 := singleViewAttemptBody_error up 1 e h1
  unfold singleViewCompositeFlow
  rw [retryLoopRun_throw (singleViewAttemptBody up) 3 none 1 2 3 e rfl b1 (by simp [hno])]
  exact ⟨rfl, rfl, rfl⟩

/-- C2 witness: the concrete quota error is propagated after one
attempt. -/
theorem claim_C2_witness :
    isOverload503 quotaError = false ∧
    ((singleViewCompositeFlow sampleInput upQuotaError).attempts = 1 ∧
     (singleViewCompositeFlow sampleInput upQuotaError).waitsMs = [] ∧
     (singleViewCompositeFlow sampleInput upQuotaError).result = .error quotaError) :=
  ⟨by decide,
   claim_C2_singleView_no_retry_non_overload sampleInput upQuotaError quotaError rfl (by decide)⟩

/-- C3: an overload failure on attempt 1 followed by a resolution on
attempt 2 yields the attempt-2 result after exactly one 3000 ms backoff
wait and exactly 2 attempts. -/
theorem claim_C3_singleView_success_after_transient (input : SingleViewCompositeInput)
    (up : Upstream) (e : JsError) (media : Option GenMedia)
    (h1 : up 1 = .error e) (h5 : isOverload503 e = true) (h2 : up 2 = .ok media) :
    (singleViewCompositeFlow input up).result =
      .ok { compositeImage := jsOrEmpty (media.bind GenMedia.url) } ∧
    (singleViewCompositeFlow input up).waitsMs = [3000] ∧
    (singleViewCompositeFlow input up).attempts = 2 := by
  have b1 := singleViewAttemptBody_error up 1 e h1
  have b2 := singleViewAttemptBody_ok up 2 media h2
  unfold singleViewCompositeFlow
  rw [retryLoopRun_continue (singleViewAttemptBody up) 3 none 1 2 3 e rfl b1 h5 (by norm_num)]
  rw [retryLoopRun_ok (singleViewAttemptBody up) 3 (some e) 2 1 2 _ rfl b2]
  exact ⟨rfl, rfl, rfl⟩

/-- C3 witness: the concrete recover-on-second-attempt upstream. -/
theorem claim_C3_witness :
    isOverload503 overloadError = true ∧
    ((singleViewCompositeFlow sampleInput upRecoverSecond).result =
       .ok { compositeImage := "data:image/png;base64,COMPOSITE" } ∧
     (singleViewCompositeFlow sampleInput upRecoverSecond).waitsMs = [3000] ∧
     (singleViewCompositeFlow sampleInput upRecoverSecond).attempts = 2) :=
  ⟨by decide,
   claim_C3_singleView_success_after_transient sampleInput upRecoverSecond
     overloadError (some sampleMedia) rfl (by decide) rfl⟩

/-- C4: an upstream resolution without an image payload settles the
single-view flow successfully with the empty image reference, after a
single attempt and without throwing. -/
theorem claim_C4_singleView_empty_payload (input : SingleViewCompositeInput)
    (up : Upstream) (media : Option GenMedia)
    (h1 : up 1 = .ok media) (hempty : media.bind GenMedia.url = none) :
    (singleViewCompositeFlow input up).result = .ok { compositeImage := "" } ∧
    (singleViewCompositeFlow input up).attempts = 1 ∧
    (singleViewCompositeFlow input up).waitsMs = [] := by
  have b1 := singleViewAttemptBody_ok up 1 media h1
  rw [hempty] at b1
  unfold singleViewCompositeFlow
  rw [retryLoopRun_ok (singleViewAttemptBody up) 3 none 1 2 3 _ rfl b1]
  exact ⟨rfl, rfl, rfl⟩

/-- C4 witness: the concrete no-payload upstream resolves with the empty
image reference. -/
theorem claim_C4_witness :
    (upEmptyOk 1 = .ok none ∧ (Option.bind none GenMedia.url) = none) ∧
    ((singleViewCompositeFlow sampleInput upEmptyOk).result = .ok { compositeImage := "" } ∧
     (singleViewCompositeFlow sampleInput upEmptyOk).attempts = 1 ∧
     (singleViewCompositeFlow sampleInput upEmptyOk).waitsMs = []) :=
  ⟨⟨rfl, rfl⟩,
   claim_C4_singleView_empty_payload sampleInput upEmptyOk none rfl rfl⟩

/-- C5 counterexample: on an upstream that resolves with no media
payload, the generate-ai-model flow does not resolve with an empty image
reference: the non-null assertion on the absent media throws inside the
try block, the error carries no 503 signature, and the flow settles as a
thrown error after one attempt — while the single-view flow on the same
upstream resolves with the empty string. -/
theorem claim_C5_counterexample :
    (generateAiModelFlow sampleAiInput upEmptyOk).result = .error mediaUndefinedError ∧
    (generateAiModelFlow sampleAiInput upEmptyOk).attempts = 1 ∧
    (singleViewCompositeFlow sampleInput upEmptyOk).result = .ok { compositeImage := "" } :=
  ⟨rfl, rfl, rfl⟩

/-- C5 amended: the generate-ai-model flow applies the identical
3-attempt / 3000 ms-backoff / 503-substring retry policy — on any
upstream whose attempts all throw, the two flows make the same attempts,
the same waits and settle with the same thrown error — but it handles an
upstream resolution without media payload differently: the non-null
assertion throws, the resulting error is classified non-retryable, and
the call settles as a thrown error after exactly one attempt instead of
resolving with an empty image reference. -/
theorem claim_C5_amended :
    (∀ (input1 : SingleViewCompositeInput) (input2 : GenerateAiModelInput)
        (up : Upstream), (∀ n, ∃ e, up n = .error e) →
        (generateAiModelFlow input2 up).attempts = (singleViewCompositeFlow input1 up).attempts ∧
        (generateAiModelFlow input2 up).waitsMs = (singleViewCompositeFlow input1 up).waitsMs ∧
        settledError (generateAiModelFlow input2 up).result
          = settledError (singleViewCompositeFlow input1 up).result) ∧
    (∀ (input2 : GenerateAiModelInput) (up : Upstream), up 1 = .ok none →
        (generateAiModelFlow input2 up).result = .error mediaUndefinedError ∧
        (generateAiModelFlow input2 up).attempts = 1 ∧
        (generateAiModelFlow input2 up).waitsMs = []) := by
  constructor
  · intro input1 input2 up h
    have hboth : ∀ n, ∃ e,
        aiModelAttemptBody up n = .error e ∧ singleViewAttemptBody up n = .error e := by
      intro n
      obtain ⟨e, he⟩ := h n
      exact ⟨e, aiModelAttemptBody_error up n e he, singleViewAttemptBody_error up n e he⟩
    exact retryLoopRun_error_congr (aiModelAttemptBody up) (singleViewAttemptBody up) 3 hboth 3 1 none
  · intro input2 up h
    have b1 := aiModelAttemptBody_noMedia up 1 h
    have hno : isOverload503 mediaUndefinedError = false := by decide
    unfold generateAiModelFlow
    rw [retryLoopRun_throw (aiModelAttemptBody up) 3 none 1 2 3 mediaUndefinedError rfl b1
      (by simp [hno])]
    exact ⟨rfl, rfl, rfl⟩

/-- C5 witness: the amended theorem applied to the always-overloaded
upstream (identical traces) and to the no-payload upstream (thrown
error after one attempt). -/
theorem claim_C5_witness :
    ((generateAiModelFlow sampleAiInput upAlways503).attempts
        = (singleViewCompositeFlow sampleInput upAlways503).attempts ∧
     (generateAiModelFlow sampleAiInput upAlways503).waitsMs
        = (singleViewCompositeFlow sampleInput upAlways503).waitsMs ∧
     settledError (generateAiModelFlow sampleAiInput upAlways503).result
        = settledError (singleViewCompositeFlow sampleInput upAlways503).result) ∧
    ((generateAiModelFlow sampleAiInput upEmptyOk).result = .error mediaUndefinedError ∧
     (generateAiModelFlow sampleAiInput upEmptyOk).attempts = 1 ∧
     (generateAiModelFlow sampleAiInput upEmptyOk).waitsMs = []) :=
  ⟨claim_C5_amended.1 sampleInput sampleAiInput upAlways503 (fun _ => ⟨overloadError, rfl⟩),
   claim_C5_amended.2 sampleAiInput upEmptyOk rfl⟩

/-- C6 counterexample: an input whose clothing image reference is the
empty string passes schema validation — `z.string()` does not reject
empty strings — so the upstream call is made (1 attempt) and the call
resolves instead of failing with a caller-input error before any
network call. -/
theorem claim_C6_counterexample :
    (generateSingleViewComposite rawEmptyClothing upImmediateOk).attempts = 1 ∧
    (generateSingleViewComposite rawEmptyClothing upImmediateOk).result =
      .ok { compositeImage := "data:image/png;base64,COMPOSITE" } :=
  ⟨rfl, rfl⟩

/-- C6 amended: only an absent clothing-image or model-image field makes
`generateSingleViewComposite` fail immediately with a schema-validation
error and zero upstream attempts; a present-but-empty string reference
passes the `z.string()` check and does not prevent the upstream call. -/
theorem claim_C6_amended (raw : RawSingleViewInput) (up : Upstream)
    (h : raw.clothingImageUri = none ∨ raw.modelImageUri = none) :
    (generateSingleViewComposite raw up).attempts = 0 ∧
    (generateSingleViewComposite raw up).result = .error schemaValidationError := by
  obtain ⟨c, m, cd, md, va⟩ := raw
  have hparse : zodParseSingleViewInput ⟨c, m, cd, md, va⟩ = none := by
    rcases h with h | h
    · simp only [] at h
      subst h
      rfl
    · simp only [] at h
      subst h
      cases c <;> rfl
  unfold generateSingleViewComposite
  rw [hparse]
  exact ⟨rfl, rfl⟩

/-- C6 witness: the amended theorem applied to the input with an absent
clothing image field. -/
theorem claim_C6_witness :
    rawMissingClothing.clothingImageUri = none ∧
    ((generateSingleViewComposite rawMissingClothing upImmediateOk).attempts = 0 ∧
     (generateSingleViewComposite rawMissingClothing upImmediateOk).result =
       .error schemaValidationError) :=
  ⟨rfl, claim_C6_amended rawMissingClothing upImmediateOk (Or.inl rfl)⟩

/-- C7: for every input, the text of the outbound request contains the
instruction selected for its view angle, and the three instructions are
exactly the angle-specific wordings: front is the forward-facing
wording, side the 90-degree profile wording, back the 180-degree rear
wording. -/
theorem claim_C7_view_angle_wording (input : SingleViewCompositeInput) :
    strHasSub (singleViewOutboundRequest input).text (viewAngleInstructions input.viewAngle)
      = true ∧
    viewAngleInstructions ViewAngle.front
      = "Show the model from the front angle, facing forward" ∧
    viewAngleInstructions ViewAngle.side
      = "Show the model from a side profile angle (90 degrees), showing the side silhouette" ∧
    viewAngleInstructions ViewAngle.back
      = "Show the model from behind (180 degrees), showing the back of the outfit" := by
  refine ⟨?_, rfl, rfl, rfl⟩
  exact strHasSub_split (compositePromptPre input) (viewAngleInstructions input.viewAngle)
    (compositePromptPost input)

/-- C8: when the clothing image, the model image or the clothing
analysis is absent, the handler shows the missing-images toast and
returns before invoking the composite flow: no flow call, zero upstream
attempts. -/
theorem claim_C8_handler_missing_field (ci mi : Option String)
    (an : Option ClothingAnalysis) (mv : ModelFormValues) (up : Upstream)
    (h : ci = none ∨ mi = none ∨ an = none) :
    (handleCreateTryOn ci mi an mv up).flowInvoked = false ∧
    (handleCreateTryOn ci mi an mv up).upstreamAttempts = 0 ∧
    (handleCreateTryOn ci mi an mv up).toast = some Toast.missingImages := by
  have hout : handleCreateTryOn ci mi an mv up = missingImagesOutcome := by
    rcases h with h | h | h
    · subst h; rfl
    · subst h; cases ci <;> rfl
    · subst h; cases ci <;> cases mi <;> rfl
  rw [hout]
  exact ⟨rfl, rfl, rfl⟩

/-- C8 witness: the handler with an absent model image makes no flow
call. -/
theorem claim_C8_witness :
    ((handleCreateTryOn (some "data:clothing") none (some sampleAnalysis)
        sampleFormValues upImmediateOk).flowInvoked = false ∧
     (handleCreateTryOn (some "data:clothing") none (some sampleAnalysis)
        sampleFormValues upImmediateOk).upstreamAttempts = 0 ∧
     (handleCreateTryOn (some "data:clothing") none (some sampleAnalysis)
        sampleFormValues upImmediateOk).toast = some Toast.missingImages) :=
  claim_C8_handler_missing_field (some "data:clothing") none (some sampleAnalysis)
    sampleFormValues upImmediateOk (Or.inr (Or.inl rfl))

/-- C9: for every upstream behaviour, both flows terminate inside the
loop — control never reaches the trailing throw of the stale last error
— and at most 3 upstream attempts are made. -/
theorem claim_C9_attempt_budget (input1 : SingleViewCompositeInput)
    (input2 : GenerateAiModelInput) (up : Upstream) :
    (singleViewCompositeFlow input1 up).afterLoopThrow = false ∧
    (singleViewCompositeFlow input1 up).attempts ≤ 3 ∧
    (generateAiModelFlow input2 up).afterLoopThrow = false ∧
    (generateAiModelFlow input2 up).attempts ≤ 3 := by
  have h1 := retryLoopRun_budget (singleViewAttemptBody up) 3 3 1 none (by norm_num) (by norm_num)
  have h2 := retryLoopRun_budget (aiModelAttemptBody up) 3 3 1 none (by norm_num) (by norm_num)
  exact ⟨h1.1, h1.2, h2.1, h2.2⟩

/-- C10: the multi-angle flow joins the three independently issued
per-angle calls: when all three resolve it returns the record of the
three views with an absent per-angle output replaced by the empty
string, and when one call throws while the others resolve, the whole
call settles with that thrown error and no three-view record. -/
theorem claim_C10_multiAngle_join
    (fo : Option FrontViewOut) (so : Option SideViewOut) (bo : Option BackViewOut)
    (e : JsError) :
    multiAngleCompositeFlow (.ok fo) (.ok so) (.ok bo) =
      .ok { frontView := jsOrEmpty (fo.map FrontViewOut.frontView)
            sideView := jsOrEmpty (so.map SideViewOut.sideView)
            backView := jsOrEmpty (bo.map BackViewOut.backView) } ∧
    multiAngleCompositeFlow (.error e) (.ok so) (.ok bo) = .error e ∧
    multiAngleCompositeFlow (.ok fo) (.error e) (.ok bo) = .error e ∧
    multiAngleCompositeFlow (.ok fo) (.ok so) (.error e) = .error e :=
  ⟨rfl, rfl, rfl, rfl⟩

end TryFit
